import Mathlib

/-!
Verification of the Knight Rider smart-car controller
(`src/KnightRiderAdventure.ino`).

The sketch's decision logic is embedded shallowly:
* distance sampling (`Eyes::measureFrontDistance`, `measureLeftDistance`,
  `measureRightDistance`) is modelled over explicit lists of raw ping
  readings (one batch per sampling attempt, the batch length standing for
  the per-call `random(3,6)` count);
* the classifier `Eyes::commonSense` and `Eyes::seekAlternateRoute` become
  pure functions of the freshly sampled `(front, left, right)` triple;
  `commonSense` returns an `Option` because the C++ function can fall off
  its end without a `return`;
* `Car::changeGear`/`Car::drive` become a transition on an explicit motor
  state record;
* the stuck watchdog `rescueMission` becomes a transition on the global
  monitor state `(nonce, beforeEyes, longVision)` that also emits the list
  of maneuver commands it performs, with `millis()` values passed in as
  inputs and the unsigned-long subtraction `millis() - nonce` taken mod 2^32.
-/

namespace KnightRider

/-! ## Situation constants (`class Eyes`, public static const int) -/

def CLEAR_PATH_AHEAD : Nat := 1
def PATH_CLOSING_UP : Nat := 2
def PATH_BLOCKED : Nat := 3
def NARROW_ROAD_LEFT_RIGHT : Nat := 30
def CLEAR_PATH_LEFT : Nat := 40
def CLEAR_PATH_RIGHT : Nat := 50
def SEEK_ALTERNATE_ROUTE : Nat := 60

/-! ## Distance sampling (`Eyes::measure*Distance`)

Each C++ sampling call draws `count = random(3,6)` raw pings, accumulates
`sum += sensor.ping_cm()` in a loop, and divides.  A batch of raw readings
is a `List Nat` (readings are the non-negative centimetre values of
`ping_cm`, 0 meaning no echo); the batch's length plays the role of
`count`.  `random(3,6)` always yields a value in `[3,5]`, captured by
`countOk`. -/

/-- The `for` loop `for(i = 0; i < count; i++) sum += ping;` as a left fold
over the batch of raw readings. -/
def sumPings (batch : List Nat) : Nat :=
  batch.foldl (fun s x => s + x) 0

/-- `sum / count`: the truncating integer mean of one batch. -/
def sampleMean (batch : List Nat) : Nat :=
  sumPings batch / batch.length

/-- Contract of `random(3,6)`: the per-call ping count lies in `[3,5]`. -/
def countOk (n : Nat) : Prop := 3 ≤ n ∧ n ≤ 5

/-- `Eyes::measureLeftDistance`: returns the batch mean unconditionally
(`return left = sum/count;`). -/
def measureLeftDistance (batch : List Nat) : Nat := sampleMean batch

/-- `Eyes::measureRightDistance`: returns the batch mean unconditionally
(`return right = sum/count;`). -/
def measureRightDistance (batch : List Nat) : Nat := sampleMean batch

/-- `Eyes::measureFrontDistance`: computes the batch mean; the C++
`if(front = sum/count) return front; return measureFrontDistance();`
returns the mean when it is non-zero and otherwise discards the batch and
recurses on a fresh one.  The argument lists the batches of successive
attempts; `none` models the recursion exhausting them (all-zero echoes
forever). -/
def measureFrontDistance : List (List Nat) → Option Nat
  | [] => none
  | b :: rest =>
      if sampleMean b ≠ 0 then some (sampleMean b)
      else measureFrontDistance rest

/-! ## Gear advice (`Eyes::suggestGear`)

The C++ method samples a fresh front distance and applies a pure threshold
chain; the model takes the sampled distance as argument. -/

/-- `Eyes::suggestGear` threshold chain on the measured front distance. -/
def suggestGear (distance : Nat) : Nat :=
  if distance ≥ 275 then 4
  else if distance ≥ 200 then 3
  else if distance ≥ 100 then 2
  else 1

/-! ## Situation classification (`Eyes::commonSense`, `Eyes::seekAlternateRoute`)

Both refresh the `(front, left, right)` triple via `openEyesWide()`; the
models take that triple as arguments.  `commonSense` has an execution path
that reaches the end of the function body with no `return` statement
(inside the `f ≤ 30` branch when none of the three inner conditions hold);
that path is modelled as `none`. -/

/-- `Eyes::commonSense` on the sampled triple. -/
def commonSense (front left right : Nat) : Option Nat :=
  if front > 50 then some CLEAR_PATH_AHEAD
  else if front > 40 then some SEEK_ALTERNATE_ROUTE
  else if front > 30 then some PATH_CLOSING_UP
  else if left < 8 ∧ right < 8 then some NARROW_ROAD_LEFT_RIGHT
  else if left ≥ 8 ∧ left > right then some CLEAR_PATH_LEFT
  else if right ≥ 8 ∧ right > left then some CLEAR_PATH_RIGHT
  else none

/-- `Eyes::seekAlternateRoute` on the re-sampled triple. -/
def seekAlternateRoute (front left right : Nat) : Nat :=
  if front ≤ 40 ∧ (left > 80 ∨ right > 80) then
    if left > right then CLEAR_PATH_LEFT else CLEAR_PATH_RIGHT
  else NARROW_ROAD_LEFT_RIGHT

/-! ## Motor control (`class Car`) -/

inductive MotorDir where
  | forward
  | backward
  | release
deriving DecidableEq, Repr

/-- The observable state of the two `AF_DCMotor`s plus the `Car` field
`averageSpeed`. -/
structure CarState where
  leftSpeed : Nat
  rightSpeed : Nat
  leftDir : MotorDir
  rightDir : MotorDir
  averageSpeed : Nat
deriving DecidableEq, Repr

/-- `Car::drive(speed)`: set both motor speeds and run both `FORWARD`. -/
def drive (speed : Nat) (st : CarState) : CarState :=
  { st with
    leftSpeed := speed
    rightSpeed := speed
    leftDir := MotorDir.forward
    rightDir := MotorDir.forward }

/-- The `switch (gear)` of `Car::changeGear`: `default:` and `case 1:`
fall through to 125, `case 2:` 150, `case 3:` 175, `case 4:` 200. -/
def gearSpeed (gear : Int) : Nat :=
  if gear = 2 then 150
  else if gear = 3 then 175
  else if gear = 4 then 200
  else 125

/-- `Car::changeGear(gear)`: the `switch` assigns `averageSpeed` and then
`drive(averageSpeed)` runs both motors forward at that speed. -/
def changeGear (gear : Int) (st : CarState) : CarState :=
  drive (gearSpeed gear) { st with averageSpeed := gearSpeed gear }

/-- The motor state after `setup()`: both speeds at `minSpeed = 125`
(the `Car` constructor), directions `RELEASE` (`Car::neutral()`),
`averageSpeed` at its initialiser 150. -/
def initialCar : CarState :=
  { leftSpeed := 125
    rightSpeed := 125
    leftDir := MotorDir.release
    rightDir := MotorDir.release
    averageSpeed := 150 }

/-! ## Stuck watchdog (`rescueMission`)

Global state: `nonce` (last `millis()` baseline), `beforeEyes[3]`,
`longVision`.  Inputs of one `rescueMission()` call: the `millis()` value
at the check, the freshly sampled `(front, left, right)` triple
(`currentEyes`), the two fresh left/right samples taken inside the
recovery branch to pick the U-turn direction, and the `millis()` value
read at the end of the fired branch when the timer is reset.  The emitted
maneuver calls are recorded as a command list. -/

structure MonitorState where
  nonce : Nat
  beforeFront : Nat
  beforeLeft : Nat
  beforeRight : Nat
  longVision : Nat
deriving DecidableEq, Repr

structure RescueInput where
  now : Nat
  front : Nat
  left : Nat
  right : Nat
  rescueLeft : Nat
  rescueRight : Nat
  tEnd : Nat
deriving DecidableEq, Repr

/-- The motor/maneuver calls `rescueMission` can perform. -/
inductive Command where
  | delayMs (ms : Nat)
  | changeGearCmd (g : Int)
  | reverseCmd
  | leftUTurnCmd
  | rightUTurnCmd
deriving DecidableEq, Repr

/-- `unsigned long` modulus for `millis()` arithmetic. -/
def ULONG_MOD : Nat := 2 ^ 32

/-- `a - b` on Arduino `unsigned long` values. -/
def ulSub (a b : Nat) : Nat :=
  (ULONG_MOD + a % ULONG_MOD - b % ULONG_MOD) % ULONG_MOD

/-- The local `int df = (int) abs(beforeEyes[0] - currentEyes[0]);`. -/
def rescueDf (st : MonitorState) (inp : RescueInput) : Nat :=
  ((st.beforeFront : Int) - (inp.front : Int)).natAbs

/-- The value of `longVision` after the conditional increment
`if (currentEyes[0] > 100 && df <= longVisionTh) longVision++;`
(executed inside the `df <= frontTh` branch). -/
def bumpedLongVision (st : MonitorState) (inp : RescueInput) : Nat :=
  if inp.front > 100 ∧ rescueDf st inp ≤ 5 then st.longVision + 1
  else st.longVision

/-- The recovery maneuver sequence: `delay(50); car.changeGear(1);
Car::reverse(); delay(1000);` then the U-turn toward whichever of the two
fresh side samples (`eyes.measureLeftDistance() >
eyes.measureRightDistance()`) is larger. -/
def rescueCommands (inp : RescueInput) : List Command :=
  [Command.delayMs 50, Command.changeGearCmd 1, Command.reverseCmd,
   Command.delayMs 1000,
   if inp.rescueLeft > inp.rescueRight then Command.leftUTurnCmd
   else Command.rightUTurnCmd]

/-- `rescueMission()`: fires only when `millis() - nonce > 5000`.  On
firing it computes `df`; if `df ≤ 10` it performs the conditional
`longVision` increment and triggers the recovery maneuver when
`longVision > 2 ∨ currentFront < 100`, resetting `longVision` to 0.  In
every fired branch it then stores `currentEyes` into `beforeEyes` and the
fresh `millis()` into `nonce`. -/
def rescueMission (inp : RescueInput) (st : MonitorState) :
    MonitorState × List Command :=
  if ulSub inp.now st.nonce > 5000 then
    if rescueDf st inp ≤ 10 then
      if bumpedLongVision st inp > 2 ∨ inp.front < 100 then
        ({ nonce := inp.tEnd
           beforeFront := inp.front
           beforeLeft := inp.left
           beforeRight := inp.right
           longVision := 0 }, rescueCommands inp)
      else
        ({ nonce := inp.tEnd
           beforeFront := inp.front
           beforeLeft := inp.left
           beforeRight := inp.right
           longVision := bumpedLongVision st inp }, [])
    else
      ({ nonce := inp.tEnd
         beforeFront := inp.front
         beforeLeft := inp.left
         beforeRight := inp.right
         longVision := st.longVision }, [])
  else (st, [])

/-! ## Helper lemmas -/

/-- The accumulating ping loop computes the sum of the batch. -/
theorem sumPings_eq_sum (l : List Nat) : sumPings l = l.sum := by
  simp [sumPings, List.sum_eq_foldl]

/-- The batch mean is the truncating integer mean `sum / length`. -/
theorem sampleMean_eq (l : List Nat) : sampleMean l = l.sum / l.length := by
  simp [sampleMean, sumPings_eq_sum]

/-- Unfolding equation for `measureFrontDistance` on a non-empty batch
list. -/
theorem measureFrontDistance_cons (b : List Nat) (rest : List (List Nat)) :
    measureFrontDistance (b :: rest) =
      if sampleMean b ≠ 0 then some (sampleMean b)
      else measureFrontDistance rest := rfl

/-- `millis() - nonce` on `unsigned long` agrees with plain subtraction
while the clock has not wrapped past the baseline. -/
theorem ulSub_small (a b : Nat) (hle : b ≤ a) (hlt : a - b < ULONG_MOD) :
    ulSub a b = a - b := by
  have hM : ULONG_MOD = 4294967296 := by norm_num [ULONG_MOD]
  unfold ulSub
  rw [hM] at hlt ⊢
  omega

/-! ## C1: `commonSense` rule order and boundaries -/

/-- C1: `Eyes::commonSense` applies its rules in order, first match
winning: `f > 50 → ClearAhead`, `40 < f ≤ 50 → SeekAlternate`,
`30 < f ≤ 40 → PathClosing`, `f ≤ 30 ∧ l < 8 ∧ r < 8 → NarrowCorridor`,
`f ≤ 30 ∧ l ≥ 8 ∧ l > r → ClearLeft`, `f ≤ 30 ∧ r ≥ 8 ∧ r > l →
ClearRight`; in particular `f = 51` gives ClearAhead, `f = 50` gives
SeekAlternate, `(60,5,5)` gives ClearAhead, `(25,5,5)` gives
NarrowCorridor and `(25,15,5)` gives ClearLeft. -/
theorem commonSense_rules (f l r : Nat) :
    (f > 50 → commonSense f l r = some CLEAR_PATH_AHEAD) ∧
    (40 < f → f ≤ 50 → commonSense f l r = some SEEK_ALTERNATE_ROUTE) ∧
    (30 < f → f ≤ 40 → commonSense f l r = some PATH_CLOSING_UP) ∧
    (f ≤ 30 → l < 8 → r < 8 → commonSense f l r = some NARROW_ROAD_LEFT_RIGHT) ∧
    (f ≤ 30 → 8 ≤ l → l > r → commonSense f l r = some CLEAR_PATH_LEFT) ∧
    (f ≤ 30 → 8 ≤ r → r > l → commonSense f l r = some CLEAR_PATH_RIGHT) ∧
    commonSense 51 l r = some CLEAR_PATH_AHEAD ∧
    commonSense 50 l r = some SEEK_ALTERNATE_ROUTE ∧
    commonSense 60 5 5 = some CLEAR_PATH_AHEAD ∧
    commonSense 25 5 5 = some NARROW_ROAD_LEFT_RIGHT ∧
    commonSense 25 15 5 = some CLEAR_PATH_LEFT := by
  refine ⟨?_, ?_, ?_, ?_, ?_, ?_, ?_, ?_, by decide, by decide, by decide⟩ <;>
    · intros
      unfold commonSense
      split_ifs <;> first | rfl | omega

/-- Witness for C1 at the boundary inputs. -/
theorem commonSense_rules_spot :
    commonSense 60 5 5 = some CLEAR_PATH_AHEAD ∧
    commonSense 25 15 5 = some CLEAR_PATH_LEFT :=
  ⟨(commonSense_rules 60 5 5).1 (by decide),
   (commonSense_rules 25 15 5).2.2.2.2.1 (by decide) (by decide) (by decide)⟩

/-! ## C2: totality of `commonSense`

The C++ body can reach the end of the function without a `return`
statement: when `f ≤ 30` and none of the three inner conditions hold,
which happens exactly when `l = r` with `l ≥ 8`.  So the classifier is
NOT total. -/

/-- C2 counterexample: at `(f,l,r) = (25,10,10)` every rule fails and
`commonSense` falls through without producing a Situation value. -/
theorem commonSense_tie_fallthrough : commonSense 25 10 10 = none := by
  decide

/-- C2 (amended): `commonSense` falls through exactly on the tie triples
`f ≤ 30 ∧ l = r ∧ l ≥ 8`; on every other triple it returns exactly one of
the six reachable Situation values. -/
theorem commonSense_total_except_tie (f l r : Nat) :
    (commonSense f l r = none ↔ f ≤ 30 ∧ l = r ∧ 8 ≤ l) ∧
    (∀ v, commonSense f l r = some v →
      v = CLEAR_PATH_AHEAD ∨ v = SEEK_ALTERNATE_ROUTE ∨
      v = PATH_CLOSING_UP ∨ v = NARROW_ROAD_LEFT_RIGHT ∨
      v = CLEAR_PATH_LEFT ∨ v = CLEAR_PATH_RIGHT) := by
  refine ⟨⟨fun h => ?_, fun h => ?_⟩, fun v hv => ?_⟩
  · unfold commonSense at h
    split_ifs at h <;> first | exact Option.noConfusion h | omega
  · unfold commonSense
    split_ifs <;> first | rfl | omega
  · unfold commonSense at hv
    unfold CLEAR_PATH_AHEAD SEEK_ALTERNATE_ROUTE PATH_CLOSING_UP
      NARROW_ROAD_LEFT_RIGHT CLEAR_PATH_LEFT CLEAR_PATH_RIGHT at hv ⊢
    split_ifs at hv <;>
      first
        | exact Option.noConfusion hv
        | (injection hv with hv; omega)

/-- Witness for C2's amended theorem at a tie triple and a non-tie
triple. -/
theorem commonSense_total_except_tie_spot :
    commonSense 25 9 9 = none ∧ commonSense 25 9 8 ≠ none :=
  ⟨(commonSense_total_except_tie 25 9 9).1.mpr (by decide),
   fun h => by
     have := (commonSense_total_except_tie 25 9 8).1.mp h
     omega⟩

/-! ## C5: `suggestGear` thresholds and monotonicity -/

/-- C5: `Eyes::suggestGear` maps the measured front distance by the pure
threshold rule (≥275 → 4, ≥200 → 3, ≥100 → 2, else 1), matches the
boundary table, and is monotone non-decreasing. -/
theorem suggestGear_thresholds :
    (∀ d : Nat,
      (275 ≤ d → suggestGear d = 4) ∧
      (200 ≤ d → d < 275 → suggestGear d = 3) ∧
      (100 ≤ d → d < 200 → suggestGear d = 2) ∧
      (d < 100 → suggestGear d = 1)) ∧
    suggestGear 99 = 1 ∧ suggestGear 100 = 2 ∧ suggestGear 199 = 2 ∧
    suggestGear 200 = 3 ∧ suggestGear 274 = 3 ∧ suggestGear 275 = 4 ∧
    (∀ d1 d2 : Nat, d1 ≤ d2 → suggestGear d1 ≤ suggestGear d2) := by
  refine ⟨fun d => ⟨?_, ?_, ?_, ?_⟩, by decide, by decide, by decide,
    by decide, by decide, by decide, fun d1 d2 h => ?_⟩ <;>
    · intros
      unfold suggestGear
      split_ifs <;> omega

/-- Witness for C5: a threshold case and a monotonicity case. -/
theorem suggestGear_thresholds_spot :
    suggestGear 300 = 4 ∧ suggestGear 10 ≤ suggestGear 300 :=
  ⟨(suggestGear_thresholds.1 300).1 (by decide),
   suggestGear_thresholds.2.2.2.2.2.2.2 10 300 (by decide)⟩

/-! ## C6: `seekAlternateRoute` -/

/-- C6: `Eyes::seekAlternateRoute` returns ClearLeft or ClearRight
(ClearLeft when the left distance is strictly larger, ClearRight when the
right one is) exactly when `front ≤ 40 ∧ (left > 80 ∨ right > 80)`, and
NarrowCorridor in every other case. -/
theorem seekAlternateRoute_spec (f l r : Nat) :
    ((seekAlternateRoute f l r = CLEAR_PATH_LEFT ∨
      seekAlternateRoute f l r = CLEAR_PATH_RIGHT) ↔
      (f ≤ 40 ∧ (l > 80 ∨ r > 80))) ∧
    (f ≤ 40 → (l > 80 ∨ r > 80) → l > r →
      seekAlternateRoute f l r = CLEAR_PATH_LEFT) ∧
    (f ≤ 40 → (l > 80 ∨ r > 80) → r > l →
      seekAlternateRoute f l r = CLEAR_PATH_RIGHT) ∧
    (¬(f ≤ 40 ∧ (l > 80 ∨ r > 80)) →
      seekAlternateRoute f l r = NARROW_ROAD_LEFT_RIGHT) := by
  unfold seekAlternateRoute CLEAR_PATH_LEFT CLEAR_PATH_RIGHT
    NARROW_ROAD_LEFT_RIGHT
  split_ifs <;> refine ⟨?_, ?_, ?_, ?_⟩ <;> omega

/-- Witness for C6 at a bypass triple and a blocked triple. -/
theorem seekAlternateRoute_spec_spot :
    seekAlternateRoute 30 90 10 = CLEAR_PATH_LEFT ∧
    seekAlternateRoute 30 50 50 = NARROW_ROAD_LEFT_RIGHT :=
  ⟨(seekAlternateRoute_spec 30 90 10).2.1 (by decide) (by decide) (by decide),
   (seekAlternateRoute_spec 30 50 50).2.2.2 (by decide)⟩

/-! ## C9: `PATH_BLOCKED` is unreachable -/

/-- C9: neither `commonSense` nor `seekAlternateRoute` ever produces the
declared `PATH_BLOCKED` Situation constant; its dispatch branch is dead. -/
theorem pathBlocked_unreachable (f l r : Nat) :
    commonSense f l r ≠ some PATH_BLOCKED ∧
    seekAlternateRoute f l r ≠ PATH_BLOCKED := by
  constructor
  · unfold commonSense
    split_ifs <;> decide
  · unfold seekAlternateRoute
    split_ifs <;> decide

/-- Witness for C9 at a concrete triple. -/
theorem pathBlocked_unreachable_spot :
    commonSense 35 6 6 ≠ some PATH_BLOCKED :=
  (pathBlocked_unreachable 35 6 6).1

/-! ## C3: the front sampler never returns 0 -/

/-- C3: `Eyes::measureFrontDistance` never returns 0: a batch whose
integer mean is 0 is discarded whole and the measurement recurses on the
next batch, and a non-zero batch mean is returned as is. -/
theorem measureFrontDistance_never_zero :
    (∀ batches v, measureFrontDistance batches = some v → v ≠ 0) ∧
    (∀ b rest, sampleMean b = 0 →
      measureFrontDistance (b :: rest) = measureFrontDistance rest) ∧
    (∀ b rest, sampleMean b ≠ 0 →
      measureFrontDistance (b :: rest) = some (sampleMean b)) := by
  refine ⟨?_, ?_, ?_⟩
  · intro batches
    induction batches with
    | nil => intro v h; exact Option.noConfusion h
    | cons b rest ih =>
        intro v h
        rw [measureFrontDistance_cons] at h
        split_ifs at h with hb
        · injection h with h
          omega
        · exact ih v h
  · intro b rest hb
    rw [measureFrontDistance_cons, if_neg (fun hc => hc hb)]
  · intro b rest hb
    rw [measureFrontDistance_cons, if_pos hb]

/-- Witness for C3: an all-zero batch is skipped and the next batch's
non-zero mean is returned. -/
theorem measureFrontDistance_never_zero_spot :
    measureFrontDistance [[0, 0, 0], [5, 6, 7]] = some 6 ∧ (6 : Nat) ≠ 0 := by
  have h0 := measureFrontDistance_never_zero.2.1 [0, 0, 0] [[5, 6, 7]]
    (by decide)
  have h1 := measureFrontDistance_never_zero.2.2 [5, 6, 7] [] (by decide)
  have h2 : measureFrontDistance [[0, 0, 0], [5, 6, 7]] = some 6 := by
    rw [h0, h1]; decide
  exact ⟨h2, measureFrontDistance_never_zero.1 [[0, 0, 0], [5, 6, 7]] 6 h2⟩

/-! ## C7: every sampling call is an integer mean of 3 to 5 pings -/

/-- C7: each sampling call reduces a batch of `N ∈ [3,5]` raw pings
(the `random(3,6)` count) to their truncating integer mean; the
left/right sensors return that mean unconditionally — including 0 — and
a front batch whose mean is non-zero yields the same mean. -/
theorem sampling_integer_mean (batch : List Nat)
    (h : countOk batch.length) :
    measureLeftDistance batch = batch.sum / batch.length ∧
    measureRightDistance batch = batch.sum / batch.length ∧
    (sampleMean batch ≠ 0 → ∀ rest,
      measureFrontDistance (batch :: rest) =
        some (batch.sum / batch.length)) ∧
    ((∀ x ∈ batch, x = 0) →
      measureLeftDistance batch = 0 ∧ measureRightDistance batch = 0) := by
  refine ⟨sampleMean_eq batch, sampleMean_eq batch,
    fun hb rest => ?_, fun hz => ?_⟩
  · rw [measureFrontDistance_cons, if_pos hb, sampleMean_eq]
  · have hsum : batch.sum = 0 := List.sum_eq_zero hz
    constructor <;>
      simp [measureLeftDistance, measureRightDistance, sampleMean_eq, hsum]

/-- Witness for C7 on a concrete 3-ping batch and an all-zero 4-ping
batch. -/
theorem sampling_integer_mean_spot :
    measureLeftDistance [4, 5, 7] = 5 ∧
    measureRightDistance [0, 0, 0, 0] = 0 := by
  have h1 := (sampling_integer_mean [4, 5, 7] (by constructor <;> decide)).1
  have h2 := (sampling_integer_mean [0, 0, 0, 0]
    (by constructor <;> decide)).2.2.2 (by decide)
  exact ⟨by rw [h1]; decide, h2.2⟩

/-! ## C10: `Car::changeGear` is total -/

/-- C10: `Car::changeGear` is total over all integer gears: any gear
outside {1,2,3,4} behaves identically to gear 1 (speed 125), and every
call ends with both motors commanded forward at the selected speed
(125/150/175/200 for gears 1-4). -/
theorem changeGear_total (g : Int) (st : CarState) :
    ((g ≠ 1 ∧ g ≠ 2 ∧ g ≠ 3 ∧ g ≠ 4) → changeGear g st = changeGear 1 st) ∧
    (changeGear g st).leftDir = MotorDir.forward ∧
    (changeGear g st).rightDir = MotorDir.forward ∧
    (changeGear g st).leftSpeed = gearSpeed g ∧
    (changeGear g st).rightSpeed = gearSpeed g ∧
    gearSpeed 1 = 125 ∧ gearSpeed 2 = 150 ∧
    gearSpeed 3 = 175 ∧ gearSpeed 4 = 200 := by
  refine ⟨fun hg => ?_, rfl, rfl, rfl, rfl, by decide, by decide,
    by decide, by decide⟩
  simp [changeGear, gearSpeed, hg.2.1, hg.2.2.1, hg.2.2.2]

/-- Witness for C10 at the out-of-range gear 7. -/
theorem changeGear_total_spot :
    changeGear 7 initialCar = changeGear 1 initialCar ∧
    (changeGear 7 initialCar).leftDir = MotorDir.forward :=
  ⟨(changeGear_total 7 initialCar).1 (by decide),
   (changeGear_total 7 initialCar).2.1⟩

/-! ## C8: watchdog frame conditions -/

/-- C8: `rescueMission` leaves the monitor state untouched while
`millis() - nonce ≤ 5000` (equivalently, under a non-wrapped monotonic
clock, while at most 5000 ms have elapsed), and whenever it fires it
stores the freshly sampled triple as the new baseline and resets the
timer, whether or not the recovery maneuver ran. -/
theorem rescueMission_frame (inp : RescueInput) (st : MonitorState) :
    (ulSub inp.now st.nonce ≤ 5000 → rescueMission inp st = (st, [])) ∧
    (st.nonce ≤ inp.now → inp.now - st.nonce ≤ 5000 →
      rescueMission inp st = (st, [])) ∧
    (ulSub inp.now st.nonce > 5000 →
      (rescueMission inp st).1.beforeFront = inp.front ∧
      (rescueMission inp st).1.beforeLeft = inp.left ∧
      (rescueMission inp st).1.beforeRight = inp.right ∧
      (rescueMission inp st).1.nonce = inp.tEnd) := by
  refine ⟨fun h => ?_, fun h1 h2 => ?_, fun h => ?_⟩
  · unfold rescueMission
    rw [if_neg (by omega)]
  · have hsmall := ulSub_small inp.now st.nonce h1
      (lt_of_le_of_lt h2 (by norm_num [ULONG_MOD]))
    unfold rescueMission
    rw [if_neg (by omega)]
  · unfold rescueMission
    rw [if_pos h]
    split_ifs <;> exact ⟨rfl, rfl, rfl, rfl⟩

/-- Witness for C8: a call 3000 ms after the baseline is a no-op; a call
6000 ms after it rewrites the baseline and timer. -/
theorem rescueMission_frame_spot :
    rescueMission ⟨4000, 70, 7, 7, 9, 9, 4001⟩ ⟨1000, 80, 8, 8, 1⟩ =
      (⟨1000, 80, 8, 8, 1⟩, []) ∧
    (rescueMission ⟨7000, 70, 7, 7, 9, 9, 7004⟩ ⟨1000, 80, 8, 8, 1⟩).1.nonce
      = 7004 :=
  ⟨(rescueMission_frame ⟨4000, 70, 7, 7, 9, 9, 4001⟩ ⟨1000, 80, 8, 8, 1⟩).2.1
      (by decide) (by decide),
   ((rescueMission_frame ⟨7000, 70, 7, 7, 9, 9, 7004⟩
      ⟨1000, 80, 8, 8, 1⟩).2.2 (by decide)).2.2.2⟩

/-! ## C4: stagnation escalation -/

/-- C4: with the stagnation counter at 0 and baseline front 120, three
consecutive qualifying firings (each with `df = 2 ≤ 10`, current front
> 100, `df ≤ 5`; the first with previousFront = 120 and currentFront =
118) increment the counter without maneuvering twice, and the third —
counter now above 2 — emits the recovery sequence (gear 1, reverse,
U-turn toward the larger fresh side sample) and resets the counter to 0;
moreover any firing with `df ≤ 10` and current front < 100 triggers
recovery regardless of the counter value. -/
theorem rescueMission_stagnation :
    (rescueMission ⟨5001, 118, 60, 60, 30, 20, 5001⟩ ⟨0, 120, 50, 50, 0⟩ =
      (⟨5001, 118, 60, 60, 1⟩, []) ∧
     rescueMission ⟨10002, 120, 60, 60, 30, 20, 10002⟩
        ⟨5001, 118, 60, 60, 1⟩ =
      (⟨10002, 120, 60, 60, 2⟩, []) ∧
     rescueMission ⟨15003, 118, 60, 60, 30, 20, 15003⟩
        ⟨10002, 120, 60, 60, 2⟩ =
      (⟨15003, 118, 60, 60, 0⟩,
       [Command.delayMs 50, Command.changeGearCmd 1, Command.reverseCmd,
        Command.delayMs 1000, Command.leftUTurnCmd])) ∧
    (∀ (st : MonitorState) (inp : RescueInput),
      ulSub inp.now st.nonce > 5000 →
      rescueDf st inp ≤ 10 →
      inp.front < 100 →
      (rescueMission inp st).2 = rescueCommands inp ∧
      (rescueMission inp st).1.longVision = 0) := by
  refine ⟨⟨by decide, by decide, by decide⟩, fun st inp h1 h2 h3 => ?_⟩
  unfold rescueMission
  rw [if_pos h1, if_pos h2, if_pos (Or.inr h3)]
  exact ⟨rfl, rfl⟩

/-- Witness for C4's close-range clause: a firing with `df = 5 ≤ 10` and
current front 40 < 100 recovers immediately with counter still 0. -/
theorem rescueMission_stagnation_spot :
    (rescueMission ⟨9000, 40, 12, 14, 20, 90, 9100⟩
      ⟨0, 45, 10, 10, 0⟩).2 =
      rescueCommands ⟨9000, 40, 12, 14, 20, 90, 9100⟩ ∧
    (rescueMission ⟨9000, 40, 12, 14, 20, 90, 9100⟩
      ⟨0, 45, 10, 10, 0⟩).1.longVision = 0 :=
  rescueMission_stagnation.2 ⟨0, 45, 10, 10, 0⟩
    ⟨9000, 40, 12, 14, 20, 90, 9100⟩ (by decide) (by decide) (by decide)

end KnightRider
